import Mathlib

/-!
Verification of `qpyscript`: the epoch rounder (`datetools.py`), the periodic
runner (`timer.py`) and the discard-oldest bounded queue (`queues.py`).

Modelling notes.
Python `datetime.datetime` and `datetime.timedelta` values have microsecond
resolution; we embed both as `Int`, a count of microseconds (a datetime is
measured from an arbitrary fixed origin, a timedelta is a signed duration).
`total_seconds` and the float modulo in `truncated_datetime` are given their
exact-real semantics: `(a / 10^6) mod (b / 10^6) = (a mod b) / 10^6`, so the
computation scales to plain integer arithmetic on microseconds.  Python's `%`
is floored modulo (`Int.fmod`), and `x % 0.0` raises `ZeroDivisionError`, so
the fallible `truncated_datetime` returns `Except`.
-/

/-- Exceptions that the embedded Python code can raise. -/
inductive PyExn
  | zeroDivision
  | invalidArgument
  deriving Repr, DecidableEq

/-- Embeds `total_seconds(dt, start)` from `datetools.py`:
`(dt - start).total_seconds()`, in microseconds. -/
def total_seconds (dt start : Int) : Int :=
  dt - start

/-- Embeds `truncated_datetime(dt, delta, start)` from `datetools.py`:
`r_diff = total_seconds(dt, start) % delta.total_seconds()` followed by
`dt - timedelta(seconds=r_diff)`.  Python raises `ZeroDivisionError` when
`delta.total_seconds()` is zero; otherwise `%` is floored modulo. -/
def truncated_datetime (dt delta start : Int) : Except PyExn Int :=
  if delta = 0 then .error .zeroDivision
  else .ok (dt - (total_seconds dt start).fmod delta)

/-- Embeds `datetime_rounder(delta, start)` from `datetools.py`: the
application `fn.partial(truncated_datetime, delta=delta, start=start)`. -/
def datetime_rounder (delta start : Int) : Int → Except PyExn Int :=
  fun dt => truncated_datetime dt delta start

lemma truncated_datetime_ok (dt delta start : Int) (h : delta ≠ 0) :
    truncated_datetime dt delta start = .ok (dt - (dt - start).fmod delta) := by
  simp [truncated_datetime, total_seconds, h]

lemma truncated_datetime_grid (dt delta start : Int) (h : 0 < delta) :
    dt - (dt - start).fmod delta = start + ((dt - start) / delta) * delta := by
  rw [Int.fmod_eq_emod _ (le_of_lt h), Int.emod_def]
  ring

/-- Claim C1: for every timestamp `t`, strictly positive interval `I` and
epoch `E`, the rounder returns a result `r` with `r ≤ t` and `r + I > t`,
and `r = E + k·I` for the largest integer `k` with `E + k·I ≤ t`. -/
theorem C1_rounder_correct (t I E : Int) (hI : 0 < I) :
    ∃ r, truncated_datetime t I E = .ok r ∧
      r ≤ t ∧ t < r + I ∧
      r = E + ((t - E) / I) * I ∧
      ∀ k : Int, E + k * I ≤ t → k ≤ (t - E) / I := by
  refine ⟨t - (t - E).fmod I, truncated_datetime_ok t I E (ne_of_gt hI), ?_, ?_, ?_, ?_⟩
  · have h0 : 0 ≤ (t - E).fmod I := by
      rw [Int.fmod_eq_emod _ (le_of_lt hI)]
      exact Int.emod_nonneg _ (ne_of_gt hI)
    omega
  · have hlt : (t - E).fmod I < I := by
      rw [Int.fmod_eq_emod _ (le_of_lt hI)]
      exact Int.emod_lt_of_pos _ hI
    omega
  · exact truncated_datetime_grid t I E hI
  · intro k hk
    rw [Int.le_ediv_iff_mul_le hI]
    omega

/-- Witness for C1 at `t = 7`, `I = 5`, `E = 0`. -/
theorem C1_rounder_correct_witness :
    ∃ r, truncated_datetime 7 5 0 = .ok r ∧
      r ≤ 7 ∧ (7 : Int) < r + 5 ∧
      r = 0 + ((7 - 0) / 5) * 5 ∧
      ∀ k : Int, 0 + k * 5 ≤ 7 → k ≤ (7 - 0) / 5 :=
  C1_rounder_correct 7 5 0 (by decide)

/-- Claim C7: the rounder is idempotent: applying it to its own result
returns that result unchanged. -/
theorem C7_rounder_idempotent (t I E : Int) (hI : 0 < I) (r : Int)
    (hr : truncated_datetime t I E = .ok r) :
    truncated_datetime r I E = .ok r := by
  rw [truncated_datetime_ok t I E (ne_of_gt hI)] at hr
  simp only [Except.ok.injEq] at hr
  have hval : r = E + ((t - E) / I) * I := by
    have := truncated_datetime_grid t I E hI
    omega
  rw [truncated_datetime_ok r I E (ne_of_gt hI)]
  have hz : (r - E).fmod I = 0 := by
    rw [Int.fmod_eq_emod _ (le_of_lt hI), hval]
    simp [Int.add_mul_emod_self]
  rw [hz]
  simp

/-- Witness for C7 at `t = 7`, `I = 5`, `E = 0`, `r = 5`. -/
theorem C7_rounder_idempotent_witness :
    truncated_datetime 5 5 0 = .ok 5 :=
  C7_rounder_idempotent 7 5 0 (by decide) 5 (by rfl)

/-- Claim C10: the rounder is monotone in the timestamp for every strictly
positive interval and every epoch. -/
theorem C10_rounder_monotone (t1 t2 I E : Int) (hI : 0 < I) (h12 : t1 ≤ t2)
    (r1 r2 : Int)
    (h1 : truncated_datetime t1 I E = .ok r1)
    (h2 : truncated_datetime t2 I E = .ok r2) :
    r1 ≤ r2 := by
  rw [truncated_datetime_ok t1 I E (ne_of_gt hI)] at h1
  rw [truncated_datetime_ok t2 I E (ne_of_gt hI)] at h2
  simp only [Except.ok.injEq] at h1 h2
  have g1 := truncated_datetime_grid t1 I E hI
  have g2 := truncated_datetime_grid t2 I E hI
  have hdiv : (t1 - E) / I ≤ (t2 - E) / I :=
    Int.ediv_le_ediv hI (by omega)
  have hmul : ((t1 - E) / I) * I ≤ ((t2 - E) / I) * I :=
    mul_le_mul_of_nonneg_right hdiv (le_of_lt hI)
  omega

/-- Witness for C10 at `t1 = 3`, `t2 = 7`, `I = 5`, `E = 0`. -/
theorem C10_rounder_monotone_witness : (0 : Int) ≤ 5 :=
  C10_rounder_monotone 3 7 5 0 (by decide) (by decide) 0 5 (by rfl) (by rfl)

/-!
Timer model (`timer.py`).  `CTimer.__init__` stores
`interval = timedelta(seconds=interval)` (in microseconds `interval * 10^6`),
the rounder over that interval, the iteration budget (`float('inf')` by
default, a finite number otherwise) and `_stop_flag = False`; it performs no
validation of its arguments.  `CTimer.run` is the loop

    counter = 0
    while counter < self.iterations:
        now = self.dtfunc()
        delta = self.rounder(now) + self.interval - now
        self.sleep(delta.total_seconds())   -- time.sleep(max(0, delta))
        self.do()
        counter += 1
        if self._stop_flag:
            self.iterations = 0

The loop's interactions with the outside world are made explicit:
`advance now d` is the injected clock's reading after sleeping `d`
microseconds starting at reading `now`; `stopSched n` is the value of
`_stop_flag` at the check of the cycle whose `counter` was `n`; `actOk n`
tells whether the `n`-th `self.do()` call returns normally (`false`: it
raises, and the exception propagates out of `run`, ending the thread with
nothing recorded).  The loop need not terminate (unbounded iterations and no
stop), so `runAux` takes fuel and returns `none` if the fuel runs out before
the loop exits.
-/

/-- Iteration budget: `float('inf')` or a finite count. -/
inductive Iters
  | fin (n : Nat)
  | inf
  deriving Repr, DecidableEq

/-- Embeds the loop guard `counter < self.iterations`. -/
def Iters.check (counter : Nat) : Iters → Bool
  | .fin n => counter < n
  | .inf => true

/-- State stored by `CTimer.__init__`: interval and epoch in microseconds,
iteration budget, stop flag (initially `False`). -/
structure CTimer where
  interval : Int
  start : Int
  iterations : Iters
  stopFlag : Bool
  deriving Repr, DecidableEq

/-- Embeds `CTimer.__init__(interval, start, iterations)`: it stores
`timedelta(seconds=interval)` (`interval * 10^6` microseconds), the rounder,
the budget and `_stop_flag = False`.  The constructor validates nothing, so
it never raises: the result is always `.ok`. -/
def CTimer_init (intervalSeconds start : Int) (iterations : Iters) :
    Except PyExn CTimer :=
  .ok { interval := intervalSeconds * 1000000, start := start,
        iterations := iterations, stopFlag := false }

/-- One cycle's deadline, `self.rounder(now) + self.interval`, taken from the
line `delta = self.rounder(now) + self.interval - now` of `CTimer.run`. -/
def cycleDeadline (interval start now : Int) : Except PyExn Int :=
  (truncated_datetime now interval start).map (fun aligned => aligned + interval)

/-- One cycle's sleep duration: `CTimer.sleep` runs
`time.sleep(max(0, interval))` on `delta.total_seconds()`. -/
def cycleWait (interval start now : Int) : Except PyExn Int :=
  (cycleDeadline interval start now).map (fun deadline => max 0 (deadline - now))

/-- Observable outcome of a terminated `CTimer.run`: how many `self.do()`,
`self.dtfunc()` and `self.sleep()` calls happened, whether an exception
escaped the loop, and the injected clock's final reading. -/
structure RunResult where
  doCalls : Nat
  clockReads : Nat
  sleepCalls : Nat
  raised : Bool
  finalNow : Int
  deriving Repr, DecidableEq

/-- Embeds the loop of `CTimer.run`, one recursive call per cycle.
`counter`, `iters` and `now` are the loop's mutable state; `doC`, `clkC`,
`slpC` count the calls made so far. -/
def runAux (interval start : Int) (advance : Int → Int → Int)
    (stopSched : Nat → Bool) (actOk : Nat → Bool) :
    Nat → Nat → Iters → Int → Nat → Nat → Nat → Option RunResult
  | 0, _, _, _, _, _, _ => none
  | fuel + 1, counter, iters, now, doC, clkC, slpC =>
    if iters.check counter then
      match cycleDeadline interval start now with
      | .error _ => some ⟨doC, clkC + 1, slpC, true, now⟩
      | .ok deadline =>
        let now2 := advance now (max 0 (deadline - now))
        if actOk counter then
          runAux interval start advance stopSched actOk fuel (counter + 1)
            (if stopSched counter then Iters.fin 0 else iters) now2
            (doC + 1) (clkC + 1) (slpC + 1)
        else some ⟨doC + 1, clkC + 1, slpC + 1, true, now2⟩
    else some ⟨doC, clkC, slpC, false, now⟩

/-- Embeds starting `CTimer.run` on timer `t` with the injected
environment. -/
def CTimer.run (t : CTimer) (advance : Int → Int → Int)
    (stopSched : Nat → Bool) (actOk : Nat → Bool) (now0 : Int) (fuel : Nat) :
    Option RunResult :=
  runAux t.interval t.start advance stopSched actOk fuel 0 t.iterations now0 0 0 0

/-- Claim C6: with interval 5 s and epoch `E` (2000-01-01T00:00:00), a cycle
starting when the clock reads `E + 7 s` computes deadline `E + 10 s` and a
sleep duration of exactly 3 s. -/
theorem C6_deadline_seven_seconds (E : Int) :
    cycleDeadline 5000000 E (E + 7000000) = .ok (E + 10000000) ∧
    cycleWait 5000000 E (E + 7000000) = .ok 3000000 := by
  have hf : (7000000 : Int).fmod 5000000 = 2000000 := by rfl
  have h : truncated_datetime (E + 7000000) 5000000 E = .ok (E + 5000000) := by
    rw [truncated_datetime_ok _ _ _ (by norm_num),
      show E + 7000000 - E = (7000000 : Int) by ring, hf]
    congr 1
    ring
  constructor
  · rw [cycleDeadline, h]
    simp [Except.map]
    ring
  · rw [cycleWait, cycleDeadline, h]
    simp [Except.map]
    rw [show E + 5000000 + 5000000 - (E + 7000000) = (3000000 : Int) by ring]
    rfl

/-- Claim C9: a runner whose iteration budget is 0 exits its loop at once:
no clock read, no sleep, no action invocation. -/
theorem C9_zero_budget_exits_immediately (interval start now0 : Int)
    (advance : Int → Int → Int) (stopSched actOk : Nat → Bool)
    (fuel : Nat) (hfuel : 1 ≤ fuel) :
    runAux interval start advance stopSched actOk fuel 0 (.fin 0) now0 0 0 0 =
      some ⟨0, 0, 0, false, now0⟩ := by
  obtain ⟨f, rfl⟩ := Nat.exists_eq_add_of_le hfuel
  rw [Nat.add_comm 1 f]
  simp [runAux, Iters.check]

/-- Witness for C9 with a concrete environment. -/
theorem C9_zero_budget_exits_immediately_witness :
    runAux 1000000 0 (fun now _ => now + 1000000) (fun _ => false)
      (fun _ => true) 1 0 (.fin 0) 0 0 0 0 = some ⟨0, 0, 0, false, 0⟩ :=
  C9_zero_budget_exits_immediately 1000000 0 0 (fun now _ => now + 1000000)
    (fun _ => false) (fun _ => true) 1 (by decide)

/-- Claim C5: a runner with interval 1 s, epoch `t0`, budget 3, a clock that
advances by exactly 1 s per sleep call, and a never-raising action invokes
the action exactly 3 times and then its loop terminates. -/
theorem C5_budget_three_runs_three_times (t0 now0 : Int) :
    CTimer.run ⟨1000000, t0, .fin 3, false⟩ (fun now _ => now + 1000000)
      (fun _ => false) (fun _ => true) now0 4 =
      some ⟨3, 3, 3, false, now0 + 1000000 + 1000000 + 1000000⟩ := by
  simp [CTimer.run, runAux, Iters.check, cycleDeadline,
    truncated_datetime, total_seconds, Except.map]

/-- Counterexample for C2: stop requested before the first cycle (flag set at
every check), budget 2.  The claim predicts the action of the cycle in which
stop is first observed is skipped, hence 0 invocations; the code invokes the
action once, because `self._stop_flag` is only read after `self.do()`. -/
theorem C2_counterexample :
    (CTimer.run ⟨1000000, 0, .fin 2, false⟩ (fun now _ => now + 1000000)
        (fun _ => true) (fun _ => true) 0 10).map RunResult.doCalls = some 1 ∧
    (CTimer.run ⟨1000000, 0, .fin 2, false⟩ (fun now _ => now + 1000000)
        (fun _ => true) (fun _ => true) 0 10).map RunResult.doCalls ≠ some 0 := by
  constructor
  · decide
  · decide

/-- Claim C2 (amended): the stop flag is checked after the cycle's action,
not before it; when the flag is observed set at the first cycle's check, the
action of that cycle has already been invoked, and the loop then terminates
with exactly that one invocation. -/
theorem C2_stop_checked_after_action (interval start now0 : Int)
    (advance : Int → Int → Int) (stopSched : Nat → Bool) (N fuel : Nat)
    (hI : interval ≠ 0) (hN : 1 ≤ N) (hfuel : 2 ≤ fuel)
    (hstop : stopSched 0 = true) :
    ∃ r, runAux interval start advance stopSched (fun _ => true) fuel 0
        (.fin N) now0 0 0 0 = some r ∧ r.doCalls = 1 ∧ r.raised = false := by
  obtain ⟨f, rfl⟩ := Nat.exists_eq_add_of_le hfuel
  rw [Nat.add_comm 2 f]
  have h0 : Iters.check 0 (.fin N) = true := by
    simp [Iters.check]
    omega
  refine ⟨⟨1, 1, 1, false,
      advance now0 (max 0 (now0 - (now0 - start).fmod interval + interval - now0))⟩,
    ?_, rfl, rfl⟩
  simp [runAux, h0, hstop, cycleDeadline, truncated_datetime_ok _ _ _ hI,
    Except.map, Iters.check]
  omega

/-- Witness for C2 (amended) with a concrete environment. -/
theorem C2_stop_checked_after_action_witness :
    ∃ r, runAux 1000000 0 (fun now _ => now + 1000000) (fun _ => true)
        (fun _ => true) 2 0 (.fin 1) 0 0 0 0 = some r ∧
      r.doCalls = 1 ∧ r.raised = false :=
  C2_stop_checked_after_action 1000000 0 0 (fun now _ => now + 1000000)
    (fun _ => true) 1 2 (by decide) (by decide) (by decide) (by decide)

/-- Counterexample for C4: budget 3 and an action that raises in cycle 0.
The claim predicts the failure is recorded and the loop continues to the
next cycle; the code lets the exception escape `run`, so the loop makes
exactly one action call and terminates with the exception unrecorded. -/
theorem C4_counterexample :
    CTimer.run ⟨1000000, 0, .fin 3, false⟩ (fun now _ => now + 1000000)
        (fun _ => false) (fun n => decide (n ≠ 0)) 0 10 =
      some ⟨1, 1, 1, true, 1000000⟩ := by
  decide

/-- Claim C4 (amended): when the action raises, the exception propagates out
of the run loop, which terminates immediately after that single action call;
no further cycle runs and nothing is recorded by the runner. -/
theorem C4_action_exception_ends_loop (interval start now0 : Int)
    (advance : Int → Int → Int) (stopSched actOk : Nat → Bool) (N fuel : Nat)
    (hI : interval ≠ 0) (hN : 1 ≤ N) (hfuel : 1 ≤ fuel)
    (hact : actOk 0 = false) :
    ∃ r, runAux interval start advance stopSched actOk fuel 0 (.fin N)
        now0 0 0 0 = some r ∧ r.raised = true ∧ r.doCalls = 1 := by
  obtain ⟨f, rfl⟩ := Nat.exists_eq_add_of_le hfuel
  rw [Nat.add_comm 1 f]
  have h0 : Iters.check 0 (.fin N) = true := by
    simp [Iters.check]
    omega
  refine ⟨⟨1, 1, 1, true,
      advance now0 (max 0 (now0 - (now0 - start).fmod interval + interval - now0))⟩,
    ?_, rfl, rfl⟩
  simp [runAux, h0, hact, cycleDeadline, truncated_datetime_ok _ _ _ hI,
    Except.map]

/-- Witness for C4 (amended) with a concrete environment. -/
theorem C4_action_exception_ends_loop_witness :
    ∃ r, runAux 1000000 0 (fun now _ => now + 1000000) (fun _ => false)
        (fun _ => false) 1 0 (.fin 3) 0 0 0 0 = some r ∧
      r.raised = true ∧ r.doCalls = 1 :=
  C4_action_exception_ends_loop 1000000 0 0 (fun now _ => now + 1000000)
    (fun _ => false) (fun _ => false) 3 1 (by decide) (by decide) (by decide)
    (by decide)

/-- Counterexample for C3: a zero interval and a negative interval are both
accepted by `CTimer.__init__` without any error, and the rounder called with
a negative interval returns a value rather than raising; nothing produces
an `InvalidArgument` failure. -/
theorem C3_counterexample :
    CTimer_init 0 0 (.fin 1) = .ok ⟨0, 0, .fin 1, false⟩ ∧
    CTimer_init (-1) 0 (.fin 1) = .ok ⟨-1000000, 0, .fin 1, false⟩ ∧
    truncated_datetime 5 (-3) 0 = .ok 6 := by
  refine ⟨rfl, rfl, ?_⟩
  rfl

/-- Claim C3 (amended): the constructor performs no validation and succeeds
for every interval, including zero and negative ones; the rounder raises
`ZeroDivisionError` (not `InvalidArgument`) when called with a zero
interval, and returns a value without error for every nonzero interval. -/
theorem C3_no_interval_validation (intervalSeconds start : Int)
    (iters : Iters) (t E delta : Int) :
    (∃ c, CTimer_init intervalSeconds start iters = .ok c) ∧
    truncated_datetime t 0 E = .error .zeroDivision ∧
    (delta ≠ 0 → ∃ r, truncated_datetime t delta E = .ok r) := by
  refine ⟨⟨_, rfl⟩, rfl, fun h => ⟨_, truncated_datetime_ok t delta E h⟩⟩

/-- Witness for C3 (amended) at interval 0, `t = 5`, `delta = -3`. -/
theorem C3_no_interval_validation_witness :
    (∃ c, CTimer_init 0 0 (.fin 1) = .ok c) ∧
    truncated_datetime 5 0 0 = .error .zeroDivision ∧
    (∃ r, truncated_datetime 5 (-3) 0 = .ok r) := by
  have h := C3_no_interval_validation 0 0 (.fin 1) 5 0 (-3)
  exact ⟨h.1, h.2.1, h.2.2 (by decide)⟩

/-!
Queue model (`queues.py`).  `PushQueue` subclasses the standard library's
`Queue.Queue`, a FIFO with a `maxsize` bound where a `maxsize` of zero means
unbounded.  The inherited primitives are modelled from their documented
behaviour: `put(item, block=False)` appends the item to the back, or raises
`Full` when `maxsize > 0` and the queue already holds `maxsize` items;
`get_nowait()` removes and returns the front (oldest) item, or raises
`Empty` on an empty queue.  `PushQueue.push(item, block=False)` is the loop

    while True:
        try: self.put(item, block=False)
        except Full:
            try: self.get_nowait()
            except Empty: pass
        else: break

and `push_nowait(item)` is `push(item, False)`.  Each `Full` branch removes
an element when the queue is nonempty, and `put` succeeds as soon as the
queue is below `maxsize`, so `length + 1` loop iterations always suffice;
`pushAux` carries that bound as fuel. -/

/-- Exceptions raised by the standard `Queue` module. -/
inductive QueueExn
  | full
  | empty
  deriving Repr, DecidableEq

/-- FIFO queue state: bound (`0` means unbounded) and pending items, oldest
first. -/
structure PushQueue (α : Type) where
  maxsize : Nat
  items : List α
  deriving Repr, DecidableEq

/-- Embeds `Queue.put(item, block=False)`: raise `Full` when bounded and at
capacity, else append to the back. -/
def put_nowait {α : Type} (q : PushQueue α) (item : α) :
    Except QueueExn (PushQueue α) :=
  if 0 < q.maxsize ∧ q.items.length = q.maxsize then .error .full
  else .ok { q with items := q.items ++ [item] }

/-- Embeds `Queue.get_nowait()`: raise `Empty` on an empty queue, else
remove and return the front (oldest) item. -/
def get_nowait {α : Type} (q : PushQueue α) :
    Except QueueExn (α × PushQueue α) :=
  match q.items with
  | [] => .error .empty
  | x :: rest => .ok (x, { q with items := rest })

/-- Embeds the retry loop of `PushQueue.push(item, block=False)`; the fuel
bounds the number of loop iterations. -/
def pushAux {α : Type} (fuel : Nat) (q : PushQueue α) (item : α) :
    PushQueue α :=
  match fuel with
  | 0 => q
  | fuel + 1 =>
    match put_nowait q item with
    | .ok q2 => q2
    | .error _ =>
      match get_nowait q with
      | .ok (_, q2) => pushAux fuel q2 item
      | .error _ => pushAux fuel q item

/-- Embeds `PushQueue.push_nowait(item)`, i.e. `push(item, False)`, with
enough fuel for the loop to run to completion. -/
def push_nowait {α : Type} (q : PushQueue α) (item : α) : PushQueue α :=
  pushAux (q.items.length + 1) q item

/-- Claim C8: for a positive capacity bound, a non-blocking push on a full
queue discards the oldest pending item and appends the new one, and the
queue's size never exceeds its bound. -/
theorem C8_push_overflow {α : Type} (q : PushQueue α) (item : α)
    (hpos : 0 < q.maxsize) (hle : q.items.length ≤ q.maxsize) :
    (q.items.length = q.maxsize →
      (push_nowait q item).items = q.items.tail ++ [item]) ∧
    (push_nowait q item).items.length ≤ q.maxsize := by
  obtain ⟨msz, items⟩ := q
  simp only at hpos hle ⊢
  rcases Nat.lt_or_ge items.length msz with hlt | hge
  · have hput : put_nowait ⟨msz, items⟩ item = .ok ⟨msz, items ++ [item]⟩ := by
      rw [put_nowait, if_neg]
      simp only [not_and]
      intro _
      omega
    rw [push_nowait, pushAux, hput]
    constructor
    · intro h
      exact absurd h (by omega)
    · simp
      omega
  · have heq : items.length = msz := le_antisymm hle hge
    cases items with
    | nil =>
      simp at heq
      omega
    | cons x rest =>
      have hlen : rest.length + 1 = msz := by simpa using heq
      have hput : put_nowait ⟨msz, x :: rest⟩ item = .error .full := by
        rw [put_nowait, if_pos]
        exact ⟨hpos, heq⟩
      have hget : get_nowait ⟨msz, x :: rest⟩ = .ok (x, ⟨msz, rest⟩) := rfl
      have hput2 : put_nowait ⟨msz, rest⟩ item = .ok ⟨msz, rest ++ [item]⟩ := by
        rw [put_nowait, if_neg]
        simp only [not_and]
        intro _
        omega
      simp only [push_nowait, List.length_cons, pushAux, hput, hget, hput2]
      constructor
      · intro _
        rfl
      · simp
        omega

/-- Witness for C8: pushing 3 onto the full queue of bound 2 holding
`[1, 2]` yields `[2, 3]`. -/
theorem C8_push_overflow_witness :
    ((⟨2, [1, 2]⟩ : PushQueue Nat).items.length = 2 →
      (push_nowait (⟨2, [1, 2]⟩ : PushQueue Nat) 3).items =
        (⟨2, [1, 2]⟩ : PushQueue Nat).items.tail ++ [3]) ∧
    (push_nowait (⟨2, [1, 2]⟩ : PushQueue Nat) 3).items.length ≤ 2 :=
  C8_push_overflow ⟨2, [1, 2]⟩ 3 (by decide) (by decide)
